import Mathlib

/-!
Shallow embedding of the `reinit` crate (src/lib.rs).

The crate provides two handle types over a single borrowed storage cell:
`Initialised<'a, T>` wraps `&'a mut T` (a live value) and
`Uninitialised<'a, T>` wraps `*mut T` (a location whose value was moved out).
We model an exclusive reference / raw pointer as an address `Addr := Nat`
into an external memory `Mem T := Addr → T`.  Lifetimes and the zero-sized
`PhantomData` marker carry no runtime content and are dropped from the model.

Operations that touch memory are state-passing over `Mem T`, and their
results live in `Except String` so that the crate's one panic path
(`impl Drop for Uninitialised`) is an explicit error channel: a body with no
`panic!` translates to `pure`, and `panic!(msg)` translates to `.error msg`.
-/

/-- A memory address: the model of `&'a mut T` and `*mut T`. -/
abbrev Addr : Type := Nat

/-- The external storage the handles borrow into: contents at every address. -/
abbrev Mem (T : Type) : Type := Addr → T

/-- `Initialised<'a, T>`: `#[repr(transparent)]` wrapper around the single
field `slot: &'a mut T`. -/
structure Initialised (T : Type) where
  slot : Addr

/-- `Uninitialised<'a, T>`: `#[repr(transparent)]` wrapper around the single
field `slot: *mut T` (the `PhantomData<&'a ()>` marker is zero-sized and
omitted from the model). -/
structure Uninitialised (T : Type) where
  slot : Addr

/-- `Initialised::new(slot: &'a mut T) -> Self { Self { slot } }`. -/
def Initialised.new {T : Type} (slot : Addr) : Initialised T :=
  { slot := slot }

/-- `Initialised::into_inner(self) -> &'a mut T { self.slot }`. -/
def Initialised.into_inner {T : Type} (self : Initialised T) : Addr :=
  self.slot

/-- `Initialised::take(self) -> (T, Uninitialised<'a, T>)`:
`(ptr::read(self.slot), Uninitialised { slot: self.slot, _phantom: PhantomData })`.
`ptr::read` returns the value stored at the address by bitwise copy and does
not write to memory, so the output memory is the input memory unchanged.
The body contains no `panic!`, hence `pure`. -/
def Initialised.take {T : Type} (self : Initialised T) (m : Mem T) :
    Except String ((T × Uninitialised T) × Mem T) :=
  pure ((m self.slot, { slot := self.slot }), m)

/-- `impl From<&'a mut T> for Initialised<'a, T>`:
`fn from(from: &'a mut T) -> Self { Initialised::new(from) }`. -/
def Initialised.fromMutRef {T : Type} (from_ : Addr) : Initialised T :=
  Initialised.new from_

/-- `impl Deref for Initialised<'_, T> where T: Deref`:
`fn deref(&self) -> &Self::Target { self.slot.deref() }`.
`T`'s own `Deref` is modelled by a read function `d : T → Target`; reading
through the handle reads the `T` at the slot and then reads through it. -/
def Initialised.derefRead {T Target : Type} (self : Initialised T)
    (d : T → Target) (m : Mem T) : Target :=
  d (m self.slot)

/-- `impl DerefMut for Initialised<'_, T> where T: DerefMut`:
`fn deref_mut(&mut self) -> &mut Self::Target { self.slot.deref_mut() }`.
`T`'s own `DerefMut` is modelled by an update function `s : T → Target → T`
(store a new target value inside a `T`); writing `v` through the handle
updates the `T` stored at the slot accordingly. -/
def Initialised.derefMutWrite {T Target : Type} (self : Initialised T)
    (s : T → Target → T) (v : Target) (m : Mem T) : Mem T :=
  Function.update m self.slot (s (m self.slot) v)

/-- Direct read through a plain `&mut T` reference `r` when `T: Deref`:
dereference `r` to the stored `T`, then read through that `T`.  This is the
spec's "direct access to the wrapped reference", stated for comparison with
`Initialised.derefRead`. -/
def readThroughRef {T Target : Type} (r : Addr) (d : T → Target)
    (m : Mem T) : Target :=
  d (m r)

/-- Direct write through a plain `&mut T` reference `r` when `T: DerefMut`:
update the target inside the `T` stored at `r`.  This is the spec's "direct
access to the wrapped reference", stated for comparison with
`Initialised.derefMutWrite`. -/
def writeThroughRef {T Target : Type} (r : Addr) (s : T → Target → T)
    (v : Target) (m : Mem T) : Mem T :=
  Function.update m r (s (m r) v)

/-- `Uninitialised::init(self, value: T) -> Initialised<'a, T>`:
`transmute::<_, *mut T>(MaybeUninit::new(self))` extracts the slot pointer
while forgetting `self` (its destructor never runs), `ptr::write(slot, value)`
stores `value` at the slot, and the result is `Initialised::new(&mut *slot)`.
The body contains no `panic!`, hence `pure`. -/
def Uninitialised.init {T : Type} (self : Uninitialised T) (value : T)
    (m : Mem T) : Except String (Initialised T × Mem T) :=
  pure (Initialised.new self.slot, Function.update m self.slot value)

/-- `impl Drop for Uninitialised<'a, T>`:
`fn drop(&mut self) { panic!(concat!("Dropped an `", stringify!(Uninitialised), "` value")) }`.
The destructor unconditionally panics with the fixed message. -/
def Uninitialised.drop {T : Type} (_self : Uninitialised T) :
    Except String Unit :=
  Except.error "Dropped an `Uninitialised` value"

/-- C1: Round-trip value preservation: wrapping a slot holding `v = m a`,
calling `take`, then calling `init` with the extracted value succeeds, and
afterwards the returned handle's unwrapped reference reads back exactly `v`
and the original storage location's content equals `v`. -/
theorem take_init_roundtrip (T : Type) (m : Mem T) (a : Addr) :
    (Initialised.new a).take m = .ok ((m a, Uninitialised.mk a), m) ∧
    (Uninitialised.mk a).init (m a) m =
      .ok (Initialised.new a, Function.update m a (m a)) ∧
    Function.update m a (m a) (Initialised.new a : Initialised T).into_inner = m a ∧
    Function.update m a (m a) a = m a := by
  refine ⟨rfl, rfl, ?_, ?_⟩ <;> simp [Initialised.new, Initialised.into_inner]

/-- C2: Drop-while-empty is fatal: the destructor of every `Uninitialised`
handle unconditionally panics with the fixed message naming the
`Uninitialised` type; there is no input on which it returns successfully. -/
theorem drop_uninitialised_panics (T : Type) (u : Uninitialised T) :
    u.drop = .error "Dropped an `Uninitialised` value" ∧
    ∀ r : Unit, u.drop ≠ .ok r := by
  exact ⟨rfl, fun r h => nomatch h⟩

/-- C3: `take` returns the stored value: for every handle over a location
holding `v = m i.slot`, `take` succeeds and returns `v` paired with an
`Uninitialised` handle borrowing the same location. -/
theorem take_returns_stored_value (T : Type) (m : Mem T)
    (i : Initialised T) :
    i.take m = .ok ((m i.slot, Uninitialised.mk i.slot), m) ∧
    (Uninitialised.mk i.slot : Uninitialised T).slot = i.slot := by
  exact ⟨rfl, rfl⟩

/-- C4: `init` writes its argument: for every `Uninitialised` handle and
every value `w`, `init` succeeds (no panic — in particular the handle's
drop-time error path is not taken), returns an `Initialised` handle over the
same location, and afterwards the location's content equals `w`. -/
theorem init_writes_value (T : Type) (m : Mem T) (u : Uninitialised T)
    (w : T) :
    u.init w m = .ok (Initialised.new u.slot, Function.update m u.slot w) ∧
    (Initialised.new u.slot : Initialised T).slot = u.slot ∧
    Function.update m u.slot w u.slot = w := by
  refine ⟨rfl, rfl, ?_⟩
  simp

/-- C5: Frame property of `take`: whenever `take` returns, the output memory
is the input memory unchanged (nothing is zeroed or overwritten), and the
location still holds exactly the extracted value. -/
theorem take_frame (T : Type) (m m' : Mem T) (i : Initialised T) (v : T)
    (u : Uninitialised T) (h : i.take m = .ok ((v, u), m')) :
    m' = m ∧ m' i.slot = v := by
  have h' : ((m i.slot, Uninitialised.mk i.slot), m) = ((v, u), m') := by
    simpa [Initialised.take, pure, Except.pure] using h
  obtain ⟨⟨hv, _⟩, hm⟩ : (m i.slot = v ∧ Uninitialised.mk i.slot = u) ∧ m = m' := by
    refine ⟨⟨?_, ?_⟩, ?_⟩
    · exact congrArg (fun p => p.1.1) h'
    · exact congrArg (fun p => p.1.2) h'
    · exact congrArg (fun p => p.2) h'
  exact ⟨hm.symm, by rw [← hm, hv]⟩

/-- Witness for C5 at a concrete input: `T = Nat`, constant memory `7`,
handle at address `0`. -/
theorem take_frame_witness :
    ((fun _ => 7 : Mem Nat) = fun _ => 7) ∧ (fun _ => 7 : Mem Nat) 0 = 7 :=
  take_frame Nat (fun _ => 7) (fun _ => 7) (Initialised.new 0) 7
    (Uninitialised.mk 0) rfl

/-- C6: Totality of the non-drop operations: `new`, `into_inner`, `take`,
`init` and the `From<&mut T>` conversion succeed on every input with no
failure path: the two memory-touching operations always return `.ok`, and
the remaining three are characterised as total pure functions. -/
theorem ops_total (T : Type) (a : Addr) (m : Mem T) (i : Initialised T)
    (u : Uninitialised T) (w : T) :
    (Initialised.new a : Initialised T).slot = a ∧
    i.into_inner = i.slot ∧
    (Initialised.fromMutRef a : Initialised T) = Initialised.new a ∧
    (∃ r, i.take m = .ok r) ∧
    (∃ r, u.init w m = .ok r) := by
  exact ⟨rfl, rfl, rfl, ⟨_, rfl⟩, ⟨_, rfl⟩⟩

/-- C7: `into_inner` is the inverse of `new`: unwrapping a freshly wrapped
exclusive reference returns exactly that reference, and the `From<&mut T>`
conversion produces the same handle as `Initialised::new`.  (Neither
operation takes the memory as an argument, so neither can alter the
referenced value.) -/
theorem into_inner_inverse_of_new (T : Type) (r : Addr) :
    (Initialised.new r : Initialised T).into_inner = r ∧
    (Initialised.fromMutRef r : Initialised T) = Initialised.new r := by
  exact ⟨rfl, rfl⟩

/-- C9: Dereference pass-through: reading through the handle's `Deref` and
writing through its `DerefMut` observe and mutate exactly the same target
location as reading and writing directly through the wrapped reference. -/
theorem deref_passthrough (T Target : Type) (i : Initialised T)
    (d : T → Target) (s : T → Target → T) (v : Target) (m : Mem T) :
    i.derefRead d m = readThroughRef i.into_inner d m ∧
    i.derefMutWrite s v m = writeThroughRef i.into_inner s v m := by
  exact ⟨rfl, rfl⟩

/-- C10: Restore-then-extract round trip: after `u.init w` succeeds, calling
`take` on the returned handle yields exactly `w` together with an
`Uninitialised` handle over the same location as `u`, with no further change
to memory. -/
theorem init_take_roundtrip (T : Type) (m : Mem T) (u : Uninitialised T)
    (w : T) :
    u.init w m = .ok (Initialised.new u.slot, Function.update m u.slot w) ∧
    (Initialised.new u.slot : Initialised T).take (Function.update m u.slot w) =
      .ok ((w, Uninitialised.mk u.slot), Function.update m u.slot w) := by
  constructor
  · rfl
  · show Except.ok ((Function.update m u.slot w u.slot, _), _) = _
    simp [Initialised.new]
